import Mathlib

/-!
Shallow embedding of the Elementary WASM audio engine sources: the
`ConvolutionNode` (Convolve.h) and the `ElementaryAudioProcessor`
(wasm/Main.cpp), together with the parts of the engine that those files use
but whose code is outside the verified sources (the `GraphNode` base class,
the `SingleWriterSingleReaderQueue`, and the `Runtime`); those parts are
modelled from the design document and marked as such in their doc comments.
Samples are modelled as rationals, machine floats as exact arithmetic.
-/

set_option autoImplicit false

namespace Elem

/-- The dynamic value type `elem::js::Value`: a closed sum over Undefined,
Null, Bool, Number, String, Array, Object and FloatBuffer, as laid out in
the design document's data model (the concrete `js::Value` implementation is
not among the verified sources). Modelled from the spec: a tagged union with
recursively composed arrays and objects. -/
inductive Value where
  | undefined : Value
  | null : Value
  | boolean : Bool → Value
  | number : ℚ → Value
  | string : String → Value
  | array : List Value → Value
  | object : List (String × Value) → Value
  | float32Array : List ℚ → Value

/-- `val.isString()`. -/
def Value.isString : Value → Bool
  | .string _ => true
  | _ => false

/-- `val.isArray()`. -/
def Value.isArray : Value → Bool
  | .array _ => true
  | _ => false

/-- `val.isFloat32Array()`. -/
def Value.isFloat32Array : Value → Bool
  | .float32Array _ => true
  | _ => false

/-- The narrowing cast `(js::String) val`; in the engine it is applied only
after an `isString` check, so the default for other kinds is never hit. -/
def Value.getString : Value → String
  | .string s => s
  | _ => ""

/-- The narrowing cast `val.getArray()`; applied only after `isArray`. -/
def Value.getArray : Value → List Value
  | .array l => l
  | _ => []

/-- The narrowing cast `val.getFloat32Array()`; applied only after
`isFloat32Array`. -/
def Value.getFloat32Array : Value → List ℚ
  | .float32Array l => l
  | _ => []

/-- Error kinds surfaced by the engine, following the design document's
error-handling section. In the C++ sources the first two are raised as
`InvariantViolation` with the messages "path prop must be a string" and
"failed to find a resource at the given path". -/
inductive ElemErr where
  | invalidProperty : ElemErr
  | resourceNotFound : ElemErr
  | unknownNodeKind : ElemErr
  deriving DecidableEq

/-- The two-stage FFT convolver, reduced to the state its `init` call
captures: the head/tail partition sizes and the impulse-response buffer.
Modelled from the spec: the convolution algorithm itself is an external
collaborator ("the specific DSP algorithms inside individual node types ...
beyond the contract they must satisfy as nodes"), so rendering is modelled
as direct FIR convolution of the block with the captured impulse response. -/
structure Convolver where
  headBlockSize : ℕ
  tailBlockSize : ℕ
  ir : List ℚ

/-- `co->reset(); co->init(512, 4096, ref->data(), ref->size())` as in
`ConvolutionNode::setProperty`. -/
def Convolver.create (ref : List ℚ) : Convolver :=
  { headBlockSize := 512, tailBlockSize := 4096, ir := ref }

/-- `convolver->process(input, output, numSamples)`: one block of output,
a pure function of the convolver state, the first input channel, and the
sample count. -/
def Convolver.run (c : Convolver) (input : List ℚ) (numSamples : ℕ) : List ℚ :=
  (List.range numSamples).map fun n =>
    ((List.range (min (n + 1) c.ir.length)).map fun k =>
      c.ir.getD k 0 * input.getD (n - k) 0).sum

/-- `SingleWriterSingleReaderQueue` of convolver payloads. Modelled from the
spec: a bounded single-producer/single-consumer channel whose `push` is
non-blocking and "fails silently by dropping if the bound is exceeded", and
whose consumer-side `pop` is non-blocking. The bound is the `cap` field. -/
structure SingleWriterSingleReaderQueue where
  cap : ℕ
  items : List Convolver

/-- `queue.push(item)`: append when below the bound, silently drop when the
bound is exceeded. Modelled from the spec. -/
def SingleWriterSingleReaderQueue.push (q : SingleWriterSingleReaderQueue)
    (item : Convolver) : SingleWriterSingleReaderQueue :=
  if q.items.length < q.cap then { q with items := q.items ++ [item] } else q

/-- The consumer loop `while (queue.size() > 0) queue.pop(slot)` over the
queue's buffered items: each `pop` overwrites the slot with the front item,
so the loop leaves the last buffered item in the slot. -/
def drainList (slot : Option Convolver) : List Convolver → Option Convolver
  | [] => slot
  | x :: xs => drainList (some x) xs

/-- The property store write performed by the base class. Modelled from the
spec: `GraphNode::setProperty(key, val)` records the value in the node's
property store, "mapping of String to Dynamic Value, last-write-wins per
key"; the base implementation is not among the verified sources. -/
def GraphNode.setProperty (key : String) (v : Value) :
    List (String × Value) → List (String × Value)
  | [] => [(key, v)]
  | (k, w) :: rest =>
    if k = key then (key, v) :: rest else (k, w) :: GraphNode.setProperty key v rest

/-- The `SharedResourceMap<FloatType>`: named immutable float buffers.
Modelled from the spec: `has(path)`, `get(path)` lookup; `put` inserts or
replaces. -/
structure SharedResourceMap where
  entries : List (String × List ℚ)

/-- `resources.get(path)` combined with `resources.has(path)`:
`none` exactly when `has` is false. Modelled from the spec. -/
def SharedResourceMap.get (m : SharedResourceMap) (path : String) : Option (List ℚ) :=
  m.entries.lookup path

/-- The state of an `elem::ConvolutionNode<FloatType>`: the `GraphNode` base
(identity, rates, property store) plus the convolver handoff queue and the
current convolver. -/
structure ConvolutionNode where
  nodeId : ℕ
  sampleRate : ℚ
  blockSize : ℕ
  props : List (String × Value)
  convolverQueue : SingleWriterSingleReaderQueue
  convolver : Option Convolver

/-- `ConvolutionNode::setProperty` from Convolve.h: the base-class property
write happens first, unconditionally; then for key "path" the value must be
a string (`invariant(val.isString(), ...)`) naming a present resource
(`invariant(resources.has(...), ...)`), and on success a convolver built
from the resource is pushed onto the handoff queue. The returned pair is
the node state after the call together with the raised error, if any (the
C++ invariants throw, leaving the already-performed mutations in place). -/
def ConvolutionNode.setProperty (node : ConvolutionNode) (key : String)
    (v : Value) (resources : SharedResourceMap) : ConvolutionNode × Option ElemErr :=
  let node1 := { node with props := GraphNode.setProperty key v node.props }
  if key = "path" then
    if !v.isString then (node1, some .invalidProperty)
    else
      match resources.get v.getString with
      | none => (node1, some .resourceNotFound)
      | some ref =>
        ({ node1 with convolverQueue := node1.convolverQueue.push (Convolver.create ref) },
         none)
  else (node1, none)

/-- The `BlockContext<FloatType>` fields `ConvolutionNode::process` reads:
the input channel buffers, the input channel count, and the sample count. -/
structure BlockContext where
  inputData : List (List ℚ)
  numInputChannels : ℕ
  numSamples : ℕ

/-- `ConvolutionNode::process` from Convolve.h: first drain the handoff
queue into the current-convolver slot (`while (convolverQueue.size() > 0)
convolverQueue.pop(convolver)`); then if `numChannels == 0 || convolver ==
nullptr`, fill the output with `numSamples` zeros; otherwise run the
convolver on `inputData[0]`. Returns the node state after the call and the
output block. -/
def ConvolutionNode.process (node : ConvolutionNode) (ctx : BlockContext) :
    ConvolutionNode × List ℚ :=
  let conv := drainList node.convolver node.convolverQueue.items
  let node1 := { node with
    convolver := conv
    convolverQueue := { node.convolverQueue with items := [] } }
  match conv with
  | none => (node1, List.replicate ctx.numSamples 0)
  | some c =>
    if ctx.numInputChannels = 0 then (node1, List.replicate ctx.numSamples 0)
    else (node1, c.run (ctx.inputData.getD 0 []) ctx.numSamples)

/-- A host value (`emscripten::val`) as far as `emValToValue` inspects it:
undefined, null, booleans (`isTrue`/`isFalse`), numbers, strings,
Float32Arrays, plain arrays, functions and plain objects. Kinds outside
these (which the C++ maps to Undefined through the final fallthrough) are
folded into `func`-like unsupported cases via the `func` constructor. -/
inductive EmVal where
  | undefined : EmVal
  | null : EmVal
  | boolean : Bool → EmVal
  | number : ℚ → EmVal
  | str : String → EmVal
  | float32Array : List ℚ → EmVal
  | arr : List EmVal → EmVal
  | func : EmVal
  | obj : List (String × EmVal) → EmVal

mutual

/-- `ElementaryAudioProcessor::emValToValue` from Main.cpp: dispatch on the
host value's kind in source order (undefined, null, true/false, number,
string, Float32Array, Array, Function, Object), converting arrays and
objects recursively; functions and any unsupported kind become Undefined. -/
def emValToValue : EmVal → Value
  | .undefined => .undefined
  | .null => .null
  | .boolean b => .boolean b
  | .number q => .number q
  | .str s => .string s
  | .float32Array l => .float32Array l
  | .arr l => .array (emValListToValue l)
  | .func => .undefined
  | .obj kvs => .object (emValObjToValue kvs)

/-- The element loop of `emValToValue` for the Array case. -/
def emValListToValue : List EmVal → List Value
  | [] => []
  | x :: xs => emValToValue x :: emValListToValue xs

/-- The key loop of `emValToValue` for the Object case. -/
def emValObjToValue : List (String × EmVal) → List (String × Value)
  | [] => []
  | (k, x) :: xs => (k, emValToValue x) :: emValObjToValue xs

end

/-- `ElementaryAudioProcessor::arrayToFloatVector` from Main.cpp: convert
each array element through the narrowing `(js::Number)` cast; any
non-number element makes the cast throw, which the function rethrows as an
`InvariantViolation` — modelled as `none`. -/
def arrayToFloatVector : List Value → Option (List ℚ)
  | [] => some []
  | .number q :: rest => (arrayToFloatVector rest).map fun l => q :: l
  | _ :: _ => none

/-- Tags of the node kinds registered by `ElementaryAudioProcessor::prepare`. -/
inductive NodeKind where
  | convolve : NodeKind
  | fft : NodeKind
  | metro : NodeKind
  | time : NodeKind
  deriving DecidableEq

/-- The `elem::Runtime<float>` state the Main.cpp claims touch. Modelled
from the spec: the factory registry populated by `registerNodeType`, the
shared resource map mutated by `updateSharedResourceMap`, and the sample
rate and block size passed to node factories. The Runtime implementation is
not among the verified sources. -/
structure Runtime where
  sampleRate : ℚ
  blockSize : ℕ
  registry : List (String × NodeKind)
  resources : List (String × List ℚ)

/-- `Runtime(sampleRate, blockSize)`: fresh runtime, empty registry and
resource map. Modelled from the spec. -/
def Runtime.create (sampleRate : ℚ) (blockSize : ℕ) : Runtime :=
  { sampleRate := sampleRate, blockSize := blockSize, registry := [], resources := [] }

/-- `runtime->registerNodeType(tag, factory)`. Modelled from the spec: the
registry maps string tags to node constructors; the factory lambdas in
Main.cpp each construct one node variant, represented here by its
`NodeKind` tag. -/
def Runtime.registerNodeType (rt : Runtime) (tag : String) (k : NodeKind) : Runtime :=
  { rt with registry := rt.registry ++ [(tag, k)] }

/-- A node as constructed by a registered factory: the factory is called
with the node id and the runtime's sample rate and block size. -/
structure CreatedNode where
  nodeId : ℕ
  kind : NodeKind
  sampleRate : ℚ
  blockSize : ℕ

/-- Handling of a create instruction. Modelled from the spec: "Registered
node kinds are looked up by a string tag ... an unregistered kind in a
create instruction fails with UnknownNodeKind"; a registered factory is
invoked with the node id, the runtime sample rate and the block size. -/
def Runtime.createNode (rt : Runtime) (tag : String) (id : ℕ) :
    Except ElemErr CreatedNode :=
  match rt.registry.lookup tag with
  | none => .error .unknownNodeKind
  | some k =>
    .ok { nodeId := id, kind := k, sampleRate := rt.sampleRate, blockSize := rt.blockSize }

/-- Insert-or-replace on the shared resource map, the effect of
`runtime->updateSharedResourceMap(path, data, size)`. Modelled from the
spec: "put(path, floats) (insert or replace, control-context only)". -/
def putResource (path : String) (buf : List ℚ) :
    List (String × List ℚ) → List (String × List ℚ)
  | [] => [(path, buf)]
  | (k, w) :: rest =>
    if k = path then (path, buf) :: rest else (k, w) :: putResource path buf rest

/-- The `ElementaryAudioProcessor` state from Main.cpp: channel counts fixed
at construction, scratch buffers sized by `prepare`, the owned runtime, and
the running sample-time counter. -/
structure ElementaryAudioProcessor where
  numInputChannels : ℕ
  numOutputChannels : ℕ
  scratchBuffers : List (List ℚ)
  runtime : Option Runtime
  sampleTime : ℤ

/-- The processor constructor `ElementaryAudioProcessor(numIns, numOuts)`:
channel counts stored, no runtime yet, `sampleTime` initialised to 0 by its
member initialiser. -/
def ElementaryAudioProcessor.create (numIns numOuts : ℕ) : ElementaryAudioProcessor :=
  { numInputChannels := numIns, numOutputChannels := numOuts,
    scratchBuffers := [], runtime := none, sampleTime := 0 }

/-- `ElementaryAudioProcessor::prepare` from Main.cpp: clear and reallocate
one zero-filled scratch buffer of `maxBlockSize` per channel, construct a
fresh runtime, and register the "convolve", "fft", "metro" and "time" node
factories. (The scratch-pointer vector is a view into the buffers and is
not modelled separately.) Note the `sampleTime` member is not touched. -/
def ElementaryAudioProcessor.prepare (p : ElementaryAudioProcessor)
    (sampleRate : ℚ) (maxBlockSize : ℕ) : ElementaryAudioProcessor :=
  { p with
    scratchBuffers :=
      List.replicate (p.numInputChannels + p.numOutputChannels)
        (List.replicate maxBlockSize 0)
    runtime := some ((((Runtime.create sampleRate maxBlockSize).registerNodeType
      "convolve" .convolve).registerNodeType "fft" .fft).registerNodeType
      "metro" .metro |>.registerNodeType "time" .time) }

/-- `ElementaryAudioProcessor::process(numSamples)` from Main.cpp: the
runtime renders into the scratch buffers with `&sampleTime` as the block
metadata — the rendered graph therefore observes the pre-increment counter,
returned here as the second component — and then `sampleTime` advances by
`numSamples`. (The graph render itself lives in the Runtime, outside the
verified sources; only the sample-time accounting is modelled.) -/
def ElementaryAudioProcessor.process (p : ElementaryAudioProcessor)
    (numSamples : ℕ) : ElementaryAudioProcessor × ℤ :=
  ({ p with sampleTime := p.sampleTime + numSamples }, p.sampleTime)

/-- Outcome of `runtime->applyInstructions(batch)` as seen from the `try`
block in `postMessageBatch`: normal return, an `elem::InvariantViolation`
carrying a message, an `mpark::bad_variant_access`, or any other thrown
exception. The Runtime's batch application is outside the verified sources,
so `postMessageBatch` is verified for every possible outcome function. -/
inductive BatchOutcome where
  | ok : BatchOutcome
  | invariantViolation : String → BatchOutcome
  | badVariantAccess : BatchOutcome
  | other : BatchOutcome

/-- `ElementaryAudioProcessor::postMessageBatch` from Main.cpp: convert the
payload; a non-array payload reports "Malformed message batch." without
touching the runtime; otherwise apply the batch, mapping each caught
exception to one error-callback invocation. The first component collects
the `(tag, message)` arguments of every `errorCallback` call, the second
records whether `applyInstructions` was invoked. -/
def ElementaryAudioProcessor.postMessageBatch
    (applyInstructions : List Value → BatchOutcome) (payload : EmVal) :
    List (String × String) × Bool :=
  let v := emValToValue payload
  if !v.isArray then ([("error", "Malformed message batch.")], false)
  else
    match applyInstructions v.getArray with
    | .ok => ([], true)
    | .invariantViolation msg => ([("error", msg)], true)
    | .badVariantAccess => ([("error", "Bad variant access")], true)
    | .other => ([("error", "Unhandled exception")], true)

/-- `ElementaryAudioProcessor::updateSharedResourceMap` from Main.cpp:
convert both arguments; a non-string path or a buffer that is neither an
Array nor a Float32Array reports an error; an Array with a non-number child
makes `arrayToFloatVector` throw, caught and reported; otherwise the
converted float buffer is written through to the runtime's resource map.
The second component is the message of the single `errorCallback` call, if
any. -/
def ElementaryAudioProcessor.updateSharedResourceMap
    (p : ElementaryAudioProcessor) (path buffer : EmVal) :
    ElementaryAudioProcessor × Option String :=
  let pv := emValToValue path
  let bv := emValToValue buffer
  if !pv.isString then (p, some "Path must be a string type")
  else if !bv.isArray && !bv.isFloat32Array then
    (p, some "Buffer argument must be an Array or Float32Array type")
  else
    match if bv.isArray then arrayToFloatVector bv.getArray else some bv.getFloat32Array with
    | none => (p, some "Invalid buffer for updating resource map")
    | some buf =>
      ({ p with runtime := p.runtime.map fun rt =>
          { rt with resources := putResource pv.getString buf rt.resources } },
       none)

/-! Helper lemmas about the queue drain and push loops. -/

theorem drainList_concat (xs : List Convolver) (slot : Option Convolver) (x : Convolver) :
    drainList slot (xs ++ [x]) = some x := by
  induction xs generalizing slot with
  | nil => rfl
  | cons y ys ih => simpa [drainList] using ih (some y)

/-- Repeated producer-side pushes, as performed by successive `setProperty`
calls between two blocks. -/
def pushAll (q : SingleWriterSingleReaderQueue) (ps : List Convolver) :
    SingleWriterSingleReaderQueue :=
  ps.foldl SingleWriterSingleReaderQueue.push q

theorem pushAll_of_fits (ps : List Convolver) (q : SingleWriterSingleReaderQueue)
    (h : q.items.length + ps.length ≤ q.cap) :
    pushAll q ps = { q with items := q.items ++ ps } := by
  induction ps generalizing q with
  | nil => simp [pushAll]
  | cons p ps ih =>
    have hlt : q.items.length < q.cap := by
      have := h
      simp only [List.length_cons] at this
      omega
    have hstep : q.push p = { q with items := q.items ++ [p] } := by
      simp [SingleWriterSingleReaderQueue.push, hlt]
    have htail := ih { q with items := q.items ++ [p] } (by
      simp only [List.length_append, List.length_singleton, List.length_cons,
        List.length_nil] at h ⊢
      omega)
    calc pushAll q (p :: ps) = pushAll (q.push p) ps := rfl
      _ = pushAll { q with items := q.items ++ [p] } ps := by rw [hstep]
      _ = { q with items := (q.items ++ [p]) ++ ps } := htail
      _ = { q with items := q.items ++ p :: ps } := by simp

/-- Claim C1: drain-to-latest handoff. Starting from a node whose handoff
queue is empty (as every `process` call leaves it), pushing the payloads
`ps0 ++ [pLast]` (at least one, and no more than the queue's bound admits)
and then calling `process` behaves exactly like a node whose current
convolver is already `pLast`: the queue is drained completely, `pLast` is
adopted as the current convolver, and the superseded payloads `ps0` are
discarded without ever influencing the rendered output or the resulting
state. The drain itself is a total function and cannot fail. -/
theorem convolve_process_drains_to_latest (node : ConvolutionNode) (ctx : BlockContext)
    (ps0 : List Convolver) (pLast : Convolver)
    (hEmpty : node.convolverQueue.items = [])
    (hFit : ps0.length + 1 ≤ node.convolverQueue.cap) :
    ({ node with convolverQueue := pushAll node.convolverQueue (ps0 ++ [pLast])
       } : ConvolutionNode).process ctx =
      ({ node with convolver := some pLast } : ConvolutionNode).process ctx ∧
    (({ node with convolverQueue := pushAll node.convolverQueue (ps0 ++ [pLast])
       } : ConvolutionNode).process ctx).1.convolver = some pLast ∧
    (({ node with convolverQueue := pushAll node.convolverQueue (ps0 ++ [pLast])
       } : ConvolutionNode).process ctx).1.convolverQueue.items = [] := by
  have hpush : pushAll node.convolverQueue (ps0 ++ [pLast]) =
      { node.convolverQueue with items := ps0 ++ [pLast] } := by
    rw [pushAll_of_fits _ _ (by
      simp only [hEmpty, List.length_nil, List.length_append, List.length_singleton]
      omega), hEmpty]
    simp
  have hdrain : drainList node.convolver (ps0 ++ [pLast]) = some pLast :=
    drainList_concat _ _ _
  have hdrain2 : drainList (some pLast) node.convolverQueue.items = some pLast := by
    rw [hEmpty]; rfl
  refine ⟨?_, ?_, ?_⟩
  · simp [ConvolutionNode.process, hpush, hdrain, hdrain2]
  · simp only [ConvolutionNode.process, hpush, hdrain]
    split <;> rfl
  · simp only [ConvolutionNode.process, hpush, hdrain]
    split <;> rfl

/-- Claim C2: silence fallback. If the block context reports zero input
channels, or the node has no current convolver and nothing queued (no
configuration has completed yet), `process` writes exactly `numSamples`
zeros to the output. -/
theorem convolve_process_silence_fallback (node : ConvolutionNode) (ctx : BlockContext)
    (h : ctx.numInputChannels = 0 ∨
      (node.convolver = none ∧ node.convolverQueue.items = [])) :
    (node.process ctx).2 = List.replicate ctx.numSamples 0 := by
  rcases h with h | ⟨hc, hq⟩
  · simp only [ConvolutionNode.process]
    cases drainList node.convolver node.convolverQueue.items with
    | none => rfl
    | some c => simp [h]
  · simp only [ConvolutionNode.process, hq, hc, drainList]

/-- Witness for C2 at a concrete node and block context. -/
theorem convolve_process_silence_fallback_witness :
    (({ nodeId := 0, sampleRate := 44100, blockSize := 128, props := [],
        convolverQueue := ⟨4, []⟩, convolver := none } : ConvolutionNode).process
      ⟨[], 0, 3⟩).2 = List.replicate 3 0 :=
  convolve_process_silence_fallback _ _ (Or.inl rfl)

/-- A concrete convolution node for exercising `setProperty`. -/
def sampleConvNode : ConvolutionNode :=
  { nodeId := 7, sampleRate := 44100, blockSize := 128, props := [],
    convolverQueue := ⟨4, []⟩, convolver := none }

/-- Counterexample to claim C3 as stated: with an empty resource map,
`setProperty("path", "/missing/ir")` fails with ResourceNotFound, yet the
node's property store is not "exactly as it was before the call" — the
base-class write at the top of `ConvolutionNode::setProperty` has already
recorded the new value before validation runs. -/
theorem convolve_setProperty_not_atomic_cex :
    (sampleConvNode.setProperty "path" (Value.string "/missing/ir") ⟨[]⟩).2 =
      some ElemErr.resourceNotFound ∧
    (sampleConvNode.setProperty "path" (Value.string "/missing/ir") ⟨[]⟩).1.props ≠
      sampleConvNode.props := by
  refine ⟨rfl, ?_⟩
  intro h
  simp [sampleConvNode, ConvolutionNode.setProperty, GraphNode.setProperty,
    SharedResourceMap.get, Value.isString] at h

/-- Claim C3, amended: a `setProperty("path", s)` call whose path is absent
from the Shared Resource Map fails with ResourceNotFound and leaves the
node's convolver and handoff queue untouched (no payload enqueued), but the
property store has already recorded the failed value, because the
base-class property write precedes validation. -/
theorem convolve_setProperty_failed_lookup_effect (node : ConvolutionNode) (s : String)
    (resources : SharedResourceMap) (h : resources.get s = none) :
    (node.setProperty "path" (Value.string s) resources).2 =
      some ElemErr.resourceNotFound ∧
    (node.setProperty "path" (Value.string s) resources).1.convolver = node.convolver ∧
    (node.setProperty "path" (Value.string s) resources).1.convolverQueue =
      node.convolverQueue ∧
    (node.setProperty "path" (Value.string s) resources).1.props =
      GraphNode.setProperty "path" (Value.string s) node.props := by
  simp [ConvolutionNode.setProperty, Value.isString, Value.getString, h]

/-- Witness for the amended C3 at a concrete node and resource map. -/
theorem convolve_setProperty_failed_lookup_effect_witness :
    (sampleConvNode.setProperty "path" (Value.string "/absent") ⟨[("/ir", [1])]⟩).2 =
      some ElemErr.resourceNotFound ∧
    (sampleConvNode.setProperty "path" (Value.string "/absent")
      ⟨[("/ir", [1])]⟩).1.convolver = sampleConvNode.convolver ∧
    (sampleConvNode.setProperty "path" (Value.string "/absent")
      ⟨[("/ir", [1])]⟩).1.convolverQueue = sampleConvNode.convolverQueue ∧
    (sampleConvNode.setProperty "path" (Value.string "/absent")
      ⟨[("/ir", [1])]⟩).1.props =
      GraphNode.setProperty "path" (Value.string "/absent") sampleConvNode.props :=
  convolve_setProperty_failed_lookup_effect sampleConvNode "/absent" _ rfl

/-- The two payloads pushed between blocks in the C1 witness. -/
def pushedPayloads : List Convolver := [Convolver.create [1]] ++ [Convolver.create [2]]

/-- The node of the C1 witness after both payloads were pushed. -/
def pushedConvNode : ConvolutionNode :=
  { sampleConvNode with convolverQueue := pushAll sampleConvNode.convolverQueue pushedPayloads }

/-- The node of the C1 witness with the second payload adopted directly. -/
def adoptedConvNode : ConvolutionNode :=
  { sampleConvNode with convolver := some (Convolver.create [2]) }

/-- A concrete one-channel block context. -/
def sampleBlockCtx : BlockContext := ⟨[[1, 1]], 1, 2⟩

/-- Witness for C1: two payloads pushed between blocks; the second is
adopted, the first discarded. -/
theorem convolve_process_drains_to_latest_witness :
    pushedConvNode.process sampleBlockCtx = adoptedConvNode.process sampleBlockCtx ∧
    (pushedConvNode.process sampleBlockCtx).1.convolver =
      some (Convolver.create [2]) ∧
    (pushedConvNode.process sampleBlockCtx).1.convolverQueue.items = [] := by
  have h := convolve_process_drains_to_latest sampleConvNode sampleBlockCtx
    [Convolver.create [1]] (Convolver.create [2]) rfl (by decide)
  simpa [pushedConvNode, adoptedConvNode, pushedPayloads] using h

/-- Counterexample to claim C4 as stated: a processor that has rendered one
128-sample block keeps `sampleTime = 128` across a subsequent `prepare`
call, and the first `process` call after that `prepare` observes sample
time 128, not 0 — `prepare` does not reset sample-time tracking. -/
theorem processor_prepare_sampleTime_cex :
    ((((ElementaryAudioProcessor.create 2 2).prepare 44100 128).process 128).1.prepare
        44100 128).sampleTime = 128 ∧
    (((((ElementaryAudioProcessor.create 2 2).prepare 44100 128).process 128).1.prepare
        44100 128).process 128).2 = 128 ∧
    (128 : ℤ) ≠ 0 := by
  refine ⟨rfl, rfl, by decide⟩

/-- Claim C4, amended: `prepare` (re)allocates the per-channel scratch
buffers, zero-filled and sized to `maxBlockSize`, but leaves the sample-time
counter unchanged, so the first `process` call after `prepare` observes the
counter's prior value; the counter is zero only from construction. -/
theorem processor_prepare_scratch_and_sampleTime (p : ElementaryAudioProcessor)
    (sr : ℚ) (bs n : ℕ) :
    (p.prepare sr bs).sampleTime = p.sampleTime ∧
    (p.prepare sr bs).scratchBuffers =
      List.replicate (p.numInputChannels + p.numOutputChannels)
        (List.replicate bs 0) ∧
    ((p.prepare sr bs).process n).2 = p.sampleTime ∧
    ∀ ins outs : ℕ, (ElementaryAudioProcessor.create ins outs).sampleTime = 0 :=
  ⟨rfl, rfl, rfl, fun _ _ => rfl⟩

/-- Claim C5: `setProperty` validation for "path". A non-string value fails
with InvalidProperty; a string path absent from the Shared Resource Map
fails with ResourceNotFound — in both cases the convolver and handoff queue
are untouched; a string path naming a present resource succeeds (no error)
and pushes a convolver built from that resource onto the handoff queue
(landing in the queue whenever the bounded queue has room). -/
theorem convolve_setProperty_path_validation (node : ConvolutionNode) (v : Value)
    (resources : SharedResourceMap) :
    (v.isString = false →
      (node.setProperty "path" v resources).2 = some ElemErr.invalidProperty ∧
      (node.setProperty "path" v resources).1.convolverQueue = node.convolverQueue ∧
      (node.setProperty "path" v resources).1.convolver = node.convolver) ∧
    (∀ s, v = Value.string s → resources.get s = none →
      (node.setProperty "path" v resources).2 = some ElemErr.resourceNotFound ∧
      (node.setProperty "path" v resources).1.convolverQueue = node.convolverQueue ∧
      (node.setProperty "path" v resources).1.convolver = node.convolver) ∧
    (∀ s ref, v = Value.string s → resources.get s = some ref →
      (node.setProperty "path" v resources).2 = none ∧
      (node.setProperty "path" v resources).1.convolverQueue =
        node.convolverQueue.push (Convolver.create ref) ∧
      (node.convolverQueue.items.length < node.convolverQueue.cap →
        (node.setProperty "path" v resources).1.convolverQueue.items =
          node.convolverQueue.items ++ [Convolver.create ref])) := by
  refine ⟨fun h => ?_, fun s hv h => ?_, fun s ref hv h => ?_⟩
  · simp [ConvolutionNode.setProperty, h]
  · subst hv
    simp [ConvolutionNode.setProperty, Value.isString, Value.getString, h]
  · subst hv
    refine ⟨?_, ?_, fun hlt => ?_⟩
    · simp [ConvolutionNode.setProperty, Value.isString, Value.getString, h]
    · simp [ConvolutionNode.setProperty, Value.isString, Value.getString, h]
    · simp [ConvolutionNode.setProperty, Value.isString, Value.getString, h,
        SingleWriterSingleReaderQueue.push, hlt]

/-- Witness for C5 at a concrete node and resource map: the success branch
enqueues the convolver built from the registered buffer. -/
theorem convolve_setProperty_path_validation_witness :
    (sampleConvNode.setProperty "path" (Value.string "/ir") ⟨[("/ir", [1, 2])]⟩).2 =
      none ∧
    (sampleConvNode.setProperty "path" (Value.string "/ir")
      ⟨[("/ir", [1, 2])]⟩).1.convolverQueue.items =
      sampleConvNode.convolverQueue.items ++ [Convolver.create [1, 2]] := by
  have h := (convolve_setProperty_path_validation sampleConvNode
    (Value.string "/ir") ⟨[("/ir", [1, 2])]⟩).2.2 "/ir" [1, 2] rfl (by decide)
  exact ⟨h.1, h.2.2 (by decide)⟩

/-- Claim C6: batch errors never escape `postMessageBatch`. A non-array
payload reports one "Malformed message batch." error without invoking
`applyInstructions`; whatever outcome `applyInstructions` has on an array
payload, a normal return reports nothing and every thrown exception is
mapped to exactly one error-callback invocation tagged "error" — the call
itself always returns. -/
theorem postMessageBatch_confines_errors (applyInstructions : List Value → BatchOutcome)
    (payload : EmVal) :
    ((emValToValue payload).isArray = false →
      ElementaryAudioProcessor.postMessageBatch applyInstructions payload =
        ([("error", "Malformed message batch.")], false)) ∧
    ((emValToValue payload).isArray = true →
      (ElementaryAudioProcessor.postMessageBatch applyInstructions payload).2 = true ∧
      (applyInstructions (emValToValue payload).getArray = BatchOutcome.ok →
        (ElementaryAudioProcessor.postMessageBatch applyInstructions payload).1 = []) ∧
      (applyInstructions (emValToValue payload).getArray ≠ BatchOutcome.ok →
        (ElementaryAudioProcessor.postMessageBatch applyInstructions payload).1.length
          = 1 ∧
        (ElementaryAudioProcessor.postMessageBatch applyInstructions
          payload).1.map Prod.fst = ["error"])) := by
  refine ⟨fun h => ?_, fun h => ?_⟩
  · simp [ElementaryAudioProcessor.postMessageBatch, h]
  · refine ⟨?_, fun hok => ?_, fun hne => ?_⟩ <;>
      cases hout : applyInstructions (emValToValue payload).getArray <;>
        simp_all [ElementaryAudioProcessor.postMessageBatch, h]

/-- Witness for C6: a numeric payload is rejected as malformed with the
runtime never invoked, and an array payload whose application throws is
reported through exactly one tagged callback. -/
theorem postMessageBatch_confines_errors_witness :
    ElementaryAudioProcessor.postMessageBatch (fun _ => BatchOutcome.other)
      (EmVal.number 3) = ([("error", "Malformed message batch.")], false) ∧
    (ElementaryAudioProcessor.postMessageBatch (fun _ => BatchOutcome.other)
      (EmVal.arr [])).1.length = 1 := by
  constructor
  · exact (postMessageBatch_confines_errors (fun _ => BatchOutcome.other)
      (EmVal.number 3)).1 (by simp [emValToValue, Value.isArray])
  · exact (((postMessageBatch_confines_errors (fun _ => BatchOutcome.other)
      (EmVal.arr [])).2 (by simp [emValToValue, Value.isArray])).2.2 (by
        intro h
        cases h)).1

/-- Claim C7: `prepare` populates the factory registry with exactly the
tags "convolve", "fft", "metro" and "time" before it returns; each factory
constructs the corresponding node variant with the prepared sample rate
and block size, and a create instruction naming any other kind fails with
UnknownNodeKind. -/
theorem prepare_populates_registry (p : ElementaryAudioProcessor) (sr : ℚ) (bs : ℕ) :
    ∃ rt : Runtime, (p.prepare sr bs).runtime = some rt ∧
      rt.registry.map Prod.fst = ["convolve", "fft", "metro", "time"] ∧
      (∀ id, rt.createNode "convolve" id = .ok ⟨id, .convolve, sr, bs⟩) ∧
      (∀ id, rt.createNode "fft" id = .ok ⟨id, .fft, sr, bs⟩) ∧
      (∀ id, rt.createNode "metro" id = .ok ⟨id, .metro, sr, bs⟩) ∧
      (∀ id, rt.createNode "time" id = .ok ⟨id, .time, sr, bs⟩) ∧
      (∀ tag id, tag ∉ ["convolve", "fft", "metro", "time"] →
        rt.createNode tag id = .error ElemErr.unknownNodeKind) := by
  refine ⟨_, rfl, rfl, fun id => rfl, fun id => rfl, fun id => rfl, fun id => rfl,
    fun tag id h => ?_⟩
  simp only [List.mem_cons, List.mem_singleton, not_or] at h
  obtain ⟨h1, h2, h3, h4, -⟩ := h
  simp [Runtime.createNode, Runtime.registerNodeType, Runtime.create, List.lookup,
    beq_eq_false_iff_ne.mpr h1, beq_eq_false_iff_ne.mpr h2,
    beq_eq_false_iff_ne.mpr h3, beq_eq_false_iff_ne.mpr h4]

/-- Witness for C7: a prepared processor accepts "convolve" and rejects the
unregistered tag "gain" with UnknownNodeKind. -/
theorem prepare_populates_registry_witness :
    ∃ rt : Runtime, ((ElementaryAudioProcessor.create 2 2).prepare 48000 64).runtime =
      some rt ∧
      rt.createNode "convolve" 7 = .ok ⟨7, .convolve, 48000, 64⟩ ∧
      rt.createNode "gain" 8 = .error ElemErr.unknownNodeKind := by
  obtain ⟨rt, hrt, -, hconv, -, -, -, hother⟩ :=
    prepare_populates_registry (ElementaryAudioProcessor.create 2 2) 48000 64
  exact ⟨rt, hrt, hconv 7, hother "gain" 8 (by decide)⟩

/-- The processor after a successful resource update: the runtime's
resource map gains (or replaces) the entry at `path`. -/
def withResource (p : ElementaryAudioProcessor) (rt : Runtime) (path : String)
    (buf : List ℚ) : ElementaryAudioProcessor :=
  { p with runtime := some { rt with resources := putResource path buf rt.resources } }

/-- Claim C8: `updateSharedResourceMap` validation and effect. A non-string
path, a buffer that is neither Array nor Float32Array, or an Array with a
non-convertible child each invoke the error callback and leave the
processor (and its resource map) unchanged; a valid Array or Float32Array
buffer is converted and written through to the runtime's resource map at
the given path with no error reported. -/
theorem updateSharedResourceMap_validates (p : ElementaryAudioProcessor)
    (path buffer : EmVal) :
    ((emValToValue path).isString = false →
      p.updateSharedResourceMap path buffer = (p, some "Path must be a string type")) ∧
    ((emValToValue path).isString = true → (emValToValue buffer).isArray = false →
      (emValToValue buffer).isFloat32Array = false →
      p.updateSharedResourceMap path buffer =
        (p, some "Buffer argument must be an Array or Float32Array type")) ∧
    ((emValToValue path).isString = true → (emValToValue buffer).isArray = true →
      arrayToFloatVector (emValToValue buffer).getArray = none →
      p.updateSharedResourceMap path buffer =
        (p, some "Invalid buffer for updating resource map")) ∧
    (∀ rt buf, p.runtime = some rt → (emValToValue path).isString = true →
      (emValToValue buffer).isArray = true →
      arrayToFloatVector (emValToValue buffer).getArray = some buf →
      p.updateSharedResourceMap path buffer =
        (withResource p rt (emValToValue path).getString buf, none)) ∧
    (∀ rt, p.runtime = some rt → (emValToValue path).isString = true →
      (emValToValue buffer).isFloat32Array = true →
      p.updateSharedResourceMap path buffer =
        (withResource p rt (emValToValue path).getString
          ((emValToValue buffer).getFloat32Array), none)) := by
  refine ⟨fun hp => ?_, fun hp ha hf => ?_, fun hp ha hc => ?_,
    fun rt buf hrt hp ha hc => ?_, fun rt hrt hp hf => ?_⟩
  · simp [ElementaryAudioProcessor.updateSharedResourceMap, hp]
  · simp [ElementaryAudioProcessor.updateSharedResourceMap, hp, ha, hf]
  · simp [ElementaryAudioProcessor.updateSharedResourceMap, hp, ha, hc]
  · simp [ElementaryAudioProcessor.updateSharedResourceMap, withResource, hp, ha, hc, hrt]
  · have ha : (emValToValue buffer).isArray = false := by
      cases hb : emValToValue buffer <;> simp_all [Value.isArray, Value.isFloat32Array]
    simp [ElementaryAudioProcessor.updateSharedResourceMap, withResource, hp, ha, hf, hrt]

/-- A processor constructed with two input and two output channels and
prepared at 48 kHz with 64-sample blocks. -/
def preparedProcessor : ElementaryAudioProcessor :=
  (ElementaryAudioProcessor.create 2 2).prepare 48000 64

/-- Witness for C8: a Float32Array buffer lands in the prepared runtime's
resource map under the given path, with no error reported. -/
theorem updateSharedResourceMap_validates_witness :
    (preparedProcessor.updateSharedResourceMap (EmVal.str "/ir/hall")
      (EmVal.float32Array [1, 0])).2 = none ∧
    ((preparedProcessor.updateSharedResourceMap (EmVal.str "/ir/hall")
      (EmVal.float32Array [1, 0])).1.runtime.map Runtime.resources) =
      some [("/ir/hall", [1, 0])] := by
  have h := (updateSharedResourceMap_validates preparedProcessor
    (EmVal.str "/ir/hall") (EmVal.float32Array [1, 0])).2.2.2.2 _ rfl
    (by simp [emValToValue, Value.isString])
    (by simp [emValToValue, Value.isFloat32Array])
  rw [h]
  exact ⟨rfl, rfl⟩

/-- Claim C9: mono convolution noninterference. For a node holding a
current convolver, two block contexts that agree on the sample count and on
the contents of input channel 0, each presenting at least one input
channel, render identical output regardless of the contents of any further
input channels — `process` reads only `inputData[0]`. -/
theorem convolve_process_reads_only_channel_zero (node : ConvolutionNode)
    (ctx1 ctx2 : BlockContext) (c : Convolver)
    (_hc : node.convolver = some c)
    (hs : ctx1.numSamples = ctx2.numSamples)
    (h0 : ctx1.inputData.getD 0 [] = ctx2.inputData.getD 0 [])
    (h1 : 1 ≤ ctx1.numInputChannels) (h2 : 1 ≤ ctx2.numInputChannels) :
    (node.process ctx1).2 = (node.process ctx2).2 := by
  have hn1 : ¬ ctx1.numInputChannels = 0 := by omega
  have hn2 : ¬ ctx2.numInputChannels = 0 := by omega
  simp only [List.getD, List.get?_eq_getElem?] at h0
  simp only [ConvolutionNode.process]
  cases drainList node.convolver node.convolverQueue.items with
  | none => simp [hs]
  | some c0 => simp [hn1, hn2, hs, h0]

/-- Witness for C9: two contexts sharing channel 0 but with different
second channels produce the same block. -/
theorem convolve_process_reads_only_channel_zero_witness :
    (adoptedConvNode.process ⟨[[1, 2], [5, 5]], 2, 2⟩).2 =
      (adoptedConvNode.process ⟨[[1, 2], [9, 9]], 2, 2⟩).2 :=
  convolve_process_reads_only_channel_zero adoptedConvNode
    ⟨[[1, 2], [5, 5]], 2, 2⟩ ⟨[[1, 2], [9, 9]], 2, 2⟩ (Convolver.create [2])
    rfl rfl rfl (by decide) (by decide)

theorem emValListToValue_eq_map (l : List EmVal) :
    emValListToValue l = l.map emValToValue := by
  induction l with
  | nil => rfl
  | cons x xs ih => simp [emValListToValue, ih]

theorem emValObjToValue_eq_map (kvs : List (String × EmVal)) :
    emValObjToValue kvs = kvs.map fun kv => (kv.1, emValToValue kv.2) := by
  induction kvs with
  | nil => rfl
  | cons kv kvs ih =>
    obtain ⟨k, x⟩ := kv
    simp [emValObjToValue, ih]

/-- Claim C10: host-value conversion is total. `emValToValue` is a total
function on host values: undefined, null, booleans, numbers, strings,
Float32Arrays, arrays and plain objects map to the corresponding Dynamic
Value kinds, arrays and objects recursively, and an unsupported kind such
as a function maps to Undefined. -/
theorem emValToValue_total_mapping :
    emValToValue EmVal.undefined = Value.undefined ∧
    emValToValue EmVal.null = Value.null ∧
    (∀ b, emValToValue (EmVal.boolean b) = Value.boolean b) ∧
    (∀ q, emValToValue (EmVal.number q) = Value.number q) ∧
    (∀ s, emValToValue (EmVal.str s) = Value.string s) ∧
    (∀ l, emValToValue (EmVal.float32Array l) = Value.float32Array l) ∧
    (∀ l, emValToValue (EmVal.arr l) = Value.array (l.map emValToValue)) ∧
    emValToValue EmVal.func = Value.undefined ∧
    (∀ kvs, emValToValue (EmVal.obj kvs) =
      Value.object (kvs.map fun kv => (kv.1, emValToValue kv.2))) := by
  refine ⟨rfl, rfl, fun b => rfl, fun q => rfl, fun s => rfl, fun l => rfl,
    fun l => ?_, rfl, fun kvs => ?_⟩
  · simp [emValToValue, emValListToValue_eq_map]
  · simp [emValToValue, emValObjToValue_eq_map]

end Elem
